import Mathlib

/-!
Verification of the ReportGenAI query pipeline specification.

The frontend definitions are shallow embeddings of the React client
(ChatInterface.jsx, FollowUpQuestions.jsx, services/api.js).  JavaScript
objects are embedded as association lists, JavaScript truthiness is made
explicit, and every function is a computable Lean definition.

The backend pipeline (orchestrator, safety gate, saved-query matcher,
agents) is not part of the available sources; those definitions are
modelled from the specification text and are marked as such in their
doc comments.
-/

namespace ReportGen

/-! ## JavaScript value model (frontend client) -/

/-- A small model of the JavaScript values the client passes around:
null/undefined, booleans, strings, and flat string-valued objects
(the `followup_answers` map). -/
inductive JSValue where
  | vNull
  | vBool (b : Bool)
  | vStr (s : String)
  | vObj (pairs : List (String × String))
deriving DecidableEq

/-- JavaScript truthiness for the modelled values: null/undefined and the
empty string are falsy, objects are truthy. -/
def truthy : JSValue → Bool
  | JSValue.vNull => false
  | JSValue.vBool b => b
  | JSValue.vStr s => if s = "" then false else true
  | JSValue.vObj _ => true

/-! ## sendQuery (frontend/src/services/api.js) -/

/-- Embedding of the request body built by `sendQuery` in services/api.js.
Each parameter is `Option JSValue`: `none` means the argument was not
passed at the call site, in which case the JavaScript default parameter
value applies (`usePredefined = true`, `queryKey = null`,
`previousSqlQuery = null`, `followupAnswers = null`,
`skipFollowups = false`, `mode = 'report'`).  The body mirrors the object
literal posted to `/chat/query`: `previous_sql_query` and
`followup_answers` are coerced with `|| null`, `skip_followups` with
`!!`, and `query_key` and `mode` are passed through unchanged. -/
def sendQueryBody (question : JSValue)
    (usePredefined queryKey previousSqlQuery followupAnswers
      skipFollowups mode : Option JSValue) : List (String × JSValue) :=
  let usePredefined := usePredefined.getD (JSValue.vBool true)
  let queryKey := queryKey.getD JSValue.vNull
  let previousSqlQuery := previousSqlQuery.getD JSValue.vNull
  let followupAnswers := followupAnswers.getD JSValue.vNull
  let skipFollowups := skipFollowups.getD (JSValue.vBool false)
  let mode := mode.getD (JSValue.vStr "report")
  [ ("question", question),
    ("query_key", queryKey),
    ("use_predefined", usePredefined),
    ("previous_sql_query", if truthy previousSqlQuery then previousSqlQuery else JSValue.vNull),
    ("followup_answers", if truthy followupAnswers then followupAnswers else JSValue.vNull),
    ("skip_followups", JSValue.vBool (truthy skipFollowups)),
    ("mode", mode) ]

/-- The field names of the chat query request, in the order the client
builds them. -/
def chatQueryFields : List String :=
  ["question", "query_key", "use_predefined", "previous_sql_query",
   "followup_answers", "skip_followups", "mode"]

/-- The call `sendQuery(query, true, queryKey, lastSqlQuery)` made by
`handleSend` in ChatInterface.jsx: the last three arguments are omitted,
so `followupAnswers`, `skipFollowups` and `mode` take their defaults. -/
def handleSendBody (query : String) (queryKey lastSql : JSValue) :
    List (String × JSValue) :=
  sendQueryBody (JSValue.vStr query) (some (JSValue.vBool true))
    (some queryKey) (some lastSql) none none none

/-- The call `sendQuery(question, true, null, lastSqlQuery, answers, true)`
made by `handleFollowupConfirm` in ChatInterface.jsx. -/
def handleFollowupConfirmBody (question : String) (lastSql : JSValue)
    (answers : List (String × String)) : List (String × JSValue) :=
  sendQueryBody (JSValue.vStr question) (some (JSValue.vBool true))
    (some JSValue.vNull) (some lastSql) (some (JSValue.vObj answers))
    (some (JSValue.vBool true)) none

/-! ## Clarification questions and their renderer (FollowUpQuestions.jsx) -/

/-- A follow-up (clarification) question object as consumed by the
frontend renderer.  The fields mirror the JSON object: optional fields
are `Option String` with `none` for an absent property. -/
structure FQuestion where
  id : String
  question : String
  qtype : String
  options : List String
  required : Bool
  estimated_cost : Option String
  estimated_mb : Option String
  estimated_seconds : Option String
deriving DecidableEq

/-- Lookup in a string-valued object with a default for absent keys,
matching the JavaScript pattern `obj[key] || fallback`. -/
def lookupD (m : List (String × String)) (k fallback : String) : String :=
  match m.lookup k with
  | some v => if v = "" then fallback else v
  | none => fallback

/-- The input widget produced by `renderQuestionInput`. -/
inductive Widget where
  | dateOptions (opts : List String) (selected : String) (customDate : Option String)
  | confirmation (selected : String)
  | textArea (value : String)
  | textInput (value : String)
deriving DecidableEq

/-- Embedding of `renderQuestionInput` in FollowUpQuestions.jsx: the
widget is chosen by `question.type`; `date_selection` renders the radio
options plus a custom date input when the options include the string
Custom Date and it is currently selected; unknown types fall back to a
plain text input. -/
def renderQuestionInput (q : FQuestion) (answers : List (String × String)) : Widget :=
  let value := lookupD answers q.id ""
  if q.qtype = "date_selection" then
    Widget.dateOptions q.options value
      (if q.options.contains "Custom Date" && (value = "Custom Date" : Bool) then
        some (lookupD answers (q.id ++ "_date") "")
      else none)
  else if q.qtype = "confirmation" then Widget.confirmation value
  else if q.qtype = "text" then Widget.textArea value
  else Widget.textInput value

/-- What the follow-up UI displays for one question. -/
structure RenderedQuestion where
  numberLabel : Nat
  questionText : String
  requiredStar : Bool
  estimates : Option (String × Option String)
  widget : Widget
  errorText : Option String
deriving DecidableEq

/-- Embedding of the per-question display in FollowUpQuestions.jsx: the
question text and required marker, the estimate badges (shown only when
`estimated_mb` is truthy, with the seconds badge only when
`estimated_seconds` is truthy), the input widget, and the per-question
error text. -/
def renderFollowUpQuestion (idx : Nat) (q : FQuestion)
    (answers errors : List (String × String)) : RenderedQuestion :=
  { numberLabel := idx + 1
    questionText := q.question
    requiredStar := q.required
    estimates :=
      match q.estimated_mb with
      | some mb =>
          if mb = "" then none
          else some (mb,
            match q.estimated_seconds with
            | some s => if s = "" then none else some s
            | none => none)
      | none => none
    widget := renderQuestionInput q answers
    errorText := errors.lookup q.id }

/-! ## handleConfirm (FollowUpQuestions.jsx) -/

/-- JavaScript truthiness of `answers[id]`: the key must be present and
its value a non-empty string. -/
def answerTruthy (answers : List (String × String)) (id : String) : Bool :=
  match answers.lookup id with
  | some s => if s = "" then false else true
  | none => false

/-- The error message `handleConfirm` records for each unanswered
required question. -/
def reqMsg : String := "This question is required"

/-- Outcome of the confirm handler: either `onConfirm(answers)` is
invoked, or the error map is set and `onConfirm` is not invoked. -/
inductive ConfirmAction where
  | confirmed (answers : List (String × String))
  | rejected (errors : List (String × String))
deriving DecidableEq

/-- The mutable `newErrors` object built by the `forEach` loop, embedded
as a cons-telescope: a later assignment shadows an earlier one under
first-match lookup. -/
def buildErrors (missing : List FQuestion) : List (String × String) :=
  missing.foldl (fun acc q => (q.id, reqMsg) :: acc) []

/-- Embedding of `handleConfirm` in FollowUpQuestions.jsx: filter the
questions that are required and have no truthy answer; if any exist,
record the required-question error for each and stop, otherwise invoke
`onConfirm` with the answers. -/
def handleConfirm (questions : List FQuestion)
    (answers : List (String × String)) : ConfirmAction :=
  let missing := questions.filter fun q => q.required && !(answerTruthy answers q.id)
  if missing.isEmpty then ConfirmAction.confirmed answers
  else ConfirmAction.rejected (buildErrors missing)

/-! ## Stored last-SQL value (ChatInterface.jsx) -/

/-- The response fields `handleSend` and `handleFollowupConfirm` consult
when deciding whether to update the stored last-SQL value. -/
structure ChatResponse where
  success : Bool
  is_conversational : Bool
  sql_query : Option String
  needs_followup : Bool
  followup_questions : Option (List FQuestion)
deriving DecidableEq

/-- Truthiness of `response.sql_query`: present and non-empty. -/
def sqlTruthy : Option String → Bool
  | some s => if s = "" then false else true
  | none => false

/-- The new value of `lastSqlQuery` after `handleSend` processes a
response: a follow-up response returns early; otherwise the value is
replaced whenever `response.sql_query` is truthy and the response is not
conversational (`success` is not consulted on this path). -/
def handleSendLastSql (resp : ChatResponse) (last : Option String) : Option String :=
  if resp.needs_followup && resp.followup_questions.isSome then last
  else if sqlTruthy resp.sql_query && !resp.is_conversational then resp.sql_query
  else last

/-- The new value of `lastSqlQuery` after `handleFollowupConfirm`
processes a response: here the update additionally requires
`response.success`. -/
def handleFollowupConfirmLastSql (resp : ChatResponse) (last : Option String) :
    Option String :=
  if resp.success && (sqlTruthy resp.sql_query && !resp.is_conversational) then
    resp.sql_query
  else last

/-! ## CSV download (handleDownloadReport in ChatInterface.jsx) -/

/-- The double-quote character. -/
def dq : Char := Char.ofNat 34

/-- The newline character. -/
def nl : Char := Char.ofNat 10

/-- A one-character string holding a double quote. -/
def dqs : String := String.mk [dq]

/-- A data row: an insertion-ordered JSON object whose values are either
null (`none`) or their JavaScript string conversion (`some`). -/
def JsRow : Type := List (String × Option String)

/-- The value of `row[header]`: an absent key (undefined) and a null
value are both `none`, matching the escape step which treats them
alike. -/
def jsField (row : JsRow) (h : String) : Option String :=
  (List.lookup h row).join

/-- Character membership test, embedding `String.prototype.includes` for
a single character. -/
def includesAux : List Char → Char → Bool
  | [], _ => false
  | x :: xs, c => if x = c then true else includesAux xs c

/-- Embedding of `stringValue.includes(c)`. -/
def jsIncludes (s : String) (c : Char) : Bool := includesAux s.toList c

/-- Embedding of `stringValue.replace(/"/g, '""')`: every double quote
is replaced by two. -/
def doubleQuotes (s : String) : String :=
  String.mk ((s.toList.map fun c => if c = dq then [dq, dq] else [c]).flatten)

/-- Embedding of the field-escaping step of `handleDownloadReport`:
null/undefined becomes the empty string; a value containing a comma,
double quote or newline is quoted with its quotes doubled; anything else
is emitted unchanged. -/
def escapeCSVField : Option String → String
  | none => ""
  | some v =>
      if jsIncludes v ',' || jsIncludes v dq || jsIncludes v nl then
        dqs ++ doubleQuotes v ++ dqs
      else v

/-- Embedding of `Array.prototype.join(sep)`. -/
def jsJoin (sep : String) : List String → String
  | [] => ""
  | [x] => x
  | x :: y :: xs => x ++ sep ++ jsJoin sep (y :: xs)

/-- One CSV line for a row, indexed by the header list taken from the
first row. -/
def csvRowLine (headers : List String) (row : JsRow) : String :=
  jsJoin "," (headers.map fun h => escapeCSVField (jsField row h))

/-- Embedding of the CSV text built by `handleDownloadReport` for a
non-empty result set: the headers are the keys of the first row; the
header line and one line per row are joined with newlines. -/
def csvContent (first : JsRow) (rest : List JsRow) : String :=
  let headers := (first : List (String × Option String)).map Prod.fst
  jsJoin "\n"
    (jsJoin "," headers :: (first :: rest).map (csvRowLine headers))

/-- Field escaping as the specification words it: null or undefined
becomes the empty string; a value none of whose characters is a comma,
double quote or newline is emitted unchanged; any other value is wrapped
in double quotes with every embedded double quote doubled. -/
def csvFieldSpec : Option String → String
  | none => ""
  | some v =>
      if v.toList.all (fun c => !(c = ',' || c = dq || c = nl)) then v
      else dqs ++ String.mk (v.toList.foldr
        (fun c acc => if c = dq then dq :: dq :: acc else c :: acc) []) ++ dqs

/-- One CSV line per row, as the specification words it. -/
def csvRowLineSpec (headers : List String) (row : JsRow) : String :=
  jsJoin "," (headers.map fun h => csvFieldSpec (jsField row h))

/-- The CSV text as the specification words it: one header line of the
column names joined by commas, followed by one line per row, each
preceded by a newline. -/
def csvSpecContent (first : JsRow) (rest : List JsRow) : String :=
  let headers := (first : List (String × Option String)).map Prod.fst
  jsJoin "," headers ++
    (((first :: rest).map fun row => "\n" ++ csvRowLineSpec headers row).foldr
      (fun a b => a ++ b) "")

/-! ## Safety Gate

The backend Python service is not among the available sources; the
following definitions are modelled from the specification text
(section 4.4 of the spec). -/

/-- The three static rejection reasons of the Safety Gate. -/
inductive SafetyReason where
  | SafetyViolation
  | SchemaMismatch
  | SemanticMismatch
deriving DecidableEq

/-- A character that can be part of a SQL word token. -/
def isWordChar (c : Char) : Bool := c.isAlpha || c.isDigit || c = '_'

/-- The single-quote character delimiting SQL string literals. -/
def sq : Char := Char.ofNat 39

/-- Modelled from the spec: the word tokens of a SQL text that lie
outside single-quoted string literals.  The boolean argument tracks
whether the scanner is inside a string literal; the list argument is the
current token, held in reverse. -/
def sqlTokens : List Char → Bool → List Char → List String
  | [], _, cur => if cur.isEmpty then [] else [String.mk cur.reverse]
  | c :: cs, true, cur =>
      if c = sq then sqlTokens cs false cur else sqlTokens cs true cur
  | c :: cs, false, cur =>
      if c = sq then
        (if cur.isEmpty then [] else [String.mk cur.reverse]) ++ sqlTokens cs true []
      else if isWordChar c then sqlTokens cs false (c :: cur)
      else (if cur.isEmpty then [] else [String.mk cur.reverse]) ++ sqlTokens cs false []

/-- The word tokens of a SQL statement outside its string literals. -/
def sqlTokensOf (s : String) : List String := sqlTokens s.toList false []

/-- Upper-casing of a token (an explicit embedding of case-insensitive
keyword comparison). -/
def upper (s : String) : String := String.mk (s.toList.map Char.toUpper)

/-- Modelled from the spec: the configured deny-list of SQL keywords. -/
def denyList : List String :=
  ["INSERT", "UPDATE", "DELETE", "DROP", "ALTER", "TRUNCATE", "EXEC",
   "MERGE", "GRANT", "REVOKE"]

/-- Modelled from the spec: whether the SQL text contains a deny-listed
keyword as a whole token outside string literals, compared
case-insensitively. -/
def containsDeniedKeyword (sql : String) : Bool :=
  (sqlTokensOf sql).any fun t => denyList.contains (upper t)

/-- Modelled from the spec: split a SQL text into statements at
semicolons that lie outside string literals. -/
def splitStatements : List Char → Bool → List Char → List (List Char)
  | [], _, cur => [cur.reverse]
  | c :: cs, true, cur =>
      if c = sq then splitStatements cs false (c :: cur)
      else splitStatements cs true (c :: cur)
  | c :: cs, false, cur =>
      if c = sq then splitStatements cs true (c :: cur)
      else if c = ';' then cur.reverse :: splitStatements cs false []
      else splitStatements cs false (c :: cur)

/-- Modelled from the spec: check (a) of the Safety Gate — the text is
exactly one non-blank statement and its leading keyword is SELECT,
case-insensitively. -/
def singleSelect (sql : String) : Bool :=
  match (splitStatements sql.toList false []).filter
      (fun st => !(st.all Char.isWhitespace)) with
  | [st] =>
      match sqlTokens st false [] with
      | t :: _ => upper t = "SELECT"
      | [] => false
  | _ => false

/-- Modelled from the spec: the Safety Gate as a pure function of a SQL
candidate text plus the outcomes of the schema-resolution check and the
semantic-grounding check, applied in order with short-circuiting:
non-single-SELECT and denied keywords give `SafetyViolation`, then
`SchemaMismatch`, then `SemanticMismatch`; `none` means the candidate
passes and is marked valid. -/
def safetyGate (sql : String) (schemaOk semanticOk : Bool) : Option SafetyReason :=
  if !singleSelect sql then some SafetyReason.SafetyViolation
  else if containsDeniedKeyword sql then some SafetyReason.SafetyViolation
  else if !schemaOk then some SafetyReason.SchemaMismatch
  else if !semanticOk then some SafetyReason.SemanticMismatch
  else none

/-- The user-facing name of a rejection reason. -/
def reasonText : SafetyReason → String
  | SafetyReason.SafetyViolation => "SafetyViolation"
  | SafetyReason.SchemaMismatch => "SchemaMismatch"
  | SafetyReason.SemanticMismatch => "SemanticMismatch"

/-! ## Saved-query catalog and matcher -/

/-- Modelled from the spec: a Saved Query Record of the catalog. -/
structure SavedRecord where
  key : String
  triggers : String
  canonical : String
  sql : String
  description : String
deriving DecidableEq

/-- Lower-case a question and strip punctuation, keeping letters, digits
and (normalized) whitespace. -/
def normalizeChars : List Char → List Char
  | [] => []
  | c :: cs =>
      if c.isAlpha || c.isDigit then c.toLower :: normalizeChars cs
      else if c.isWhitespace then ' ' :: normalizeChars cs
      else normalizeChars cs

/-- Split a normalized character list into words at spaces. -/
def splitWordsAux : List Char → List Char → List String
  | [], cur => if cur.isEmpty then [] else [String.mk cur.reverse]
  | c :: cs, cur =>
      if c = ' ' then
        (if cur.isEmpty then [] else [String.mk cur.reverse]) ++ splitWordsAux cs []
      else splitWordsAux cs (c :: cur)

/-- Modelled from the spec: the normalized (lower-cased,
punctuation-stripped) keywords of a text. -/
def keywordsOf (s : String) : List String :=
  splitWordsAux (normalizeChars s.toList) []

/-- Modelled from the spec: the keyword-overlap score of a question
against the trigger phrases of one Saved Query Record. -/
def overlapScore (question : String) (rec : SavedRecord) : Nat :=
  ((keywordsOf rec.triggers).filter fun w => (keywordsOf question).contains w).length

/-- The highest keyword-overlap score over the catalog. -/
def bestScore (question : String) (catalog : List SavedRecord) : Nat :=
  (catalog.map (overlapScore question)).foldr max 0

/-- Modelled from the spec: the saved-query matcher — the record with
the highest keyword-overlap score wins, ties are broken by catalog
insertion order (the first record attaining the best score), and a zero
score is no match. -/
def matchSaved (catalog : List SavedRecord) (question : String) : Option SavedRecord :=
  let m := bestScore question catalog
  if m = 0 then none
  else catalog.find? fun r => overlapScore question r == m

/-! ## Orchestrator state machine -/

/-- The declared mode of a request. -/
inductive Mode where
  | conversation
  | report
deriving DecidableEq

/-- Modelled from the spec: the immutable Question input of one pipeline
invocation. -/
structure Request where
  question : String
  mode : Mode
  query_key : Option String
  previous_sql_query : Option String
  followup_answers : Option (List (String × String))
  skip_followups : Bool
deriving DecidableEq

/-- Modelled from the spec: a SQL Candidate with its producing agent and
validation status. -/
structure SqlCandidate where
  sql : String
  agent : String
  status : String
  reason : Option String
deriving DecidableEq

/-- Modelled from the spec: the discriminated Pipeline Result. -/
inductive PipelineResult where
  | Conversational (text : String)
  | SavedQueryResult (sql : String) (rows : List (List String))
  | GeneratedResult (sql : String) (rows : List (List String)) (agent : String)
  | NeedsClarification (questions : List FQuestion) (rationale : String)
  | Failure (kind : String) (message : String)
deriving DecidableEq

/-- Whether a pipeline result is a clarification suspension. -/
def isNeedsClarification : PipelineResult → Bool
  | PipelineResult.NeedsClarification _ _ => true
  | _ => false

/-- Modelled from the spec: the externally supplied capabilities the
Orchestrator depends on (retrieval, generation, clarification, repair,
conversational answering, execution, and the two schema-aware checks of
the Safety Gate). -/
structure Agents where
  retrieve : String → Except String (List String)
  generate : String → List String → Option String → Option String
  clarify : String → List String → Option (List FQuestion × String)
  repair : String → String → String → List String → Option String
  conversational : String → String
  execute : String → Except String (List (List String))
  schemaOk : String → Bool
  semanticOk : String → Bool

/-- One pipeline run together with the observable collaborator activity:
the candidates produced and how often each external capability was
invoked. -/
structure Trace where
  result : PipelineResult
  candidates : List SqlCandidate
  generateCalls : Nat
  safetyCalls : Nat
  execCalls : Nat
  repairCalls : Nat
deriving DecidableEq

/-- Modelled from the spec: saved-query selection — a supplied
`query_key` bypasses scoring and selects that record unconditionally,
otherwise the matcher runs over the catalog. -/
def selectSaved (catalog : List SavedRecord) (req : Request) : Option SavedRecord :=
  match req.query_key with
  | some k => catalog.find? fun r => r.key == k
  | none => matchSaved catalog req.question

/-- Modelled from the spec: the single allowed Repair round after a
rejected or failed first candidate.  `execSoFar` counts the Execution
Adapter invocations already made for the first candidate.  The repaired
candidate passes the Safety Gate again and is executed at most once;
any further failure is terminal. -/
def repairRest (ag : Agents) (question : String) (facts : List String)
    (c1 : SqlCandidate) (reason : String) (execSoFar : Nat) : Trace :=
  match ag.repair c1.sql reason question facts with
  | none =>
      { result := PipelineResult.Failure "RepairExhausted" reason
        candidates := [c1]
        generateCalls := 1, safetyCalls := 1, execCalls := execSoFar, repairCalls := 1 }
  | some sql2 =>
      match safetyGate sql2 (ag.schemaOk sql2) (ag.semanticOk sql2) with
      | some r2 =>
          { result := PipelineResult.Failure (reasonText r2)
              "the repaired candidate was rejected"
            candidates := [c1,
              { sql := sql2, agent := "repair", status := "rejected",
                reason := some (reasonText r2) }]
            generateCalls := 1, safetyCalls := 2, execCalls := execSoFar, repairCalls := 1 }
      | none =>
          match ag.execute sql2 with
          | Except.ok rows =>
              { result := PipelineResult.GeneratedResult sql2 rows "repair"
                candidates := [c1,
                  { sql := sql2, agent := "repair", status := "valid", reason := none }]
                generateCalls := 1, safetyCalls := 2, execCalls := execSoFar + 1,
                repairCalls := 1 }
          | Except.error msg =>
              { result := PipelineResult.Failure "ExecutionError" msg
                candidates := [c1,
                  { sql := sql2, agent := "repair", status := "valid", reason := none }]
                generateCalls := 1, safetyCalls := 2, execCalls := execSoFar + 1,
                repairCalls := 1 }

/-- Modelled from the spec: the generation path after the clarification
check has been passed — Safety Gate on the first candidate, then
execution, with one Repair round driven by a gate rejection or an
execution error. -/
def generationRest (ag : Agents) (question : String) (facts : List String)
    (sql1 : String) : Trace :=
  match safetyGate sql1 (ag.schemaOk sql1) (ag.semanticOk sql1) with
  | some r1 =>
      repairRest ag question facts
        { sql := sql1, agent := "generation", status := "rejected",
          reason := some (reasonText r1) }
        (reasonText r1) 0
  | none =>
      match ag.execute sql1 with
      | Except.ok rows =>
          { result := PipelineResult.GeneratedResult sql1 rows "generation"
            candidates :=
              [{ sql := sql1, agent := "generation", status := "valid", reason := none }]
            generateCalls := 1, safetyCalls := 1, execCalls := 1, repairCalls := 0 }
      | Except.error msg =>
          repairRest ag question facts
            { sql := sql1, agent := "generation", status := "valid", reason := none }
            msg 1

/-- Modelled from the spec: the Orchestrator state machine for one run.
Mode gating comes first: a conversation-mode request never enters any
SQL path.  In report mode a saved-query hit executes the saved SQL once
without repair; otherwise retrieval, generation, the clarification
check, the Safety Gate and execution run in order, with at most one
Repair round. -/
def runPipeline (ag : Agents) (catalog : List SavedRecord) (req : Request) : Trace :=
  match req.mode with
  | Mode.conversation =>
      { result := PipelineResult.Conversational (ag.conversational req.question)
        candidates := []
        generateCalls := 0, safetyCalls := 0, execCalls := 0, repairCalls := 0 }
  | Mode.report =>
      match selectSaved catalog req with
      | some rec =>
          match ag.execute rec.sql with
          | Except.ok rows =>
              { result := PipelineResult.SavedQueryResult rec.sql rows
                candidates :=
                  [{ sql := rec.sql, agent := "saved", status := "valid", reason := none }]
                generateCalls := 0, safetyCalls := 0, execCalls := 1, repairCalls := 0 }
          | Except.error msg =>
              { result := PipelineResult.Failure "ExecutionError" msg
                candidates :=
                  [{ sql := rec.sql, agent := "saved", status := "valid", reason := none }]
                generateCalls := 0, safetyCalls := 0, execCalls := 1, repairCalls := 0 }
      | none =>
          match ag.retrieve req.question with
          | Except.error msg =>
              { result := PipelineResult.Failure "RetrievalError" msg
                candidates := []
                generateCalls := 0, safetyCalls := 0, execCalls := 0, repairCalls := 0 }
          | Except.ok facts =>
              match ag.generate req.question facts req.previous_sql_query with
              | none =>
                  { result := PipelineResult.Failure "GenerationError"
                      "no well-formed SQL produced"
                    candidates := []
                    generateCalls := 1, safetyCalls := 0, execCalls := 0, repairCalls := 0 }
              | some sql1 =>
                  match ag.clarify req.question facts with
                  | some (qs, rationale) =>
                      if req.followup_answers.isNone && !req.skip_followups then
                        { result := PipelineResult.NeedsClarification qs rationale
                          candidates :=
                            [{ sql := sql1, agent := "generation", status := "unchecked",
                               reason := none }]
                          generateCalls := 1, safetyCalls := 0, execCalls := 0,
                          repairCalls := 0 }
                      else generationRest ag req.question facts sql1
                  | none => generationRest ag req.question facts sql1

/-! ## Concrete fixtures used by witnesses and counterexamples -/

/-- A well-behaved collaborator stub for the pipeline. -/
def stubAgents : Agents :=
  { retrieve := fun _ => Except.ok ["SUPER_LOAN_ACCOUNT_DIM"]
    generate := fun _ _ _ => some "SELECT loan_id FROM SUPER_LOAN_ACCOUNT_DIM"
    clarify := fun _ _ => none
    repair := fun _ _ _ _ => some "SELECT loan_type FROM SUPER_LOAN_ACCOUNT_DIM"
    conversational := fun q => q
    execute := fun _ => Except.ok [["42"]]
    schemaOk := fun _ => true
    semanticOk := fun _ => true }

/-- The stub with an Execution Adapter that always fails. -/
def failingAgents : Agents :=
  { stubAgents with execute := fun _ => Except.error "connection lost" }

/-- A clarification question fixture. -/
def clarifyQuestion : FQuestion :=
  { id := "d1", question := "Which date column applies?", qtype := "date_selection",
    options := ["Loan Open Date", "Last Payment Date"], required := true,
    estimated_cost := none, estimated_mb := none, estimated_seconds := none }

/-- The stub with a Clarification Agent that always asks a question. -/
def clarifyAgents : Agents :=
  { stubAgents with clarify := fun _ _ => some ([clarifyQuestion], "ambiguous date column") }

/-- A report-mode replay request with `skip_followups` set. -/
def reportReq : Request :=
  { question := "how many gold loan accounts", mode := Mode.report, query_key := none,
    previous_sql_query := none, followup_answers := none, skip_followups := true }

/-- A conversation-mode request. -/
def convReq : Request := { reportReq with mode := Mode.conversation, skip_followups := false }

/-- First of two saved records whose trigger keywords tie on the fixture
question. -/
def tieRecA : SavedRecord :=
  { key := "gold_loans_a", triggers := "gold loan accounts", canonical := "",
    sql := "SELECT COUNT(a) FROM GOLD_COLLATERAL_DIM", description := "" }

/-- Second of the two tying saved records. -/
def tieRecB : SavedRecord :=
  { key := "gold_loans_b", triggers := "accounts loan gold", canonical := "",
    sql := "SELECT COUNT(b) FROM GOLD_COLLATERAL_DIM", description := "" }

/-- A follow-up question carrying both the claimed `estimated_cost` field
and the `estimated_mb` field the renderer actually reads. -/
def qWithMb : FQuestion :=
  { id := "q1", question := "Restrict to the last quarter?", qtype := "text",
    options := [], required := true, estimated_cost := some "low",
    estimated_mb := some "25", estimated_seconds := none }

/-- The same question with `estimated_mb` removed: it agrees with
`qWithMb` on every field of the claimed item shape. -/
def qNoMb : FQuestion := { qWithMb with estimated_mb := none }

/-- The same question with only `estimated_cost` changed. -/
def qOtherCost : FQuestion := { qWithMb with estimated_cost := none }

/-- An error response that nevertheless carries a SQL query. -/
def errorResponseWithSql : ChatResponse :=
  { success := false, is_conversational := false, sql_query := some "SELECT 1",
    needs_followup := false, followup_questions := none }

/-- A required follow-up question fixture for the confirm handler. -/
def requiredQ : FQuestion :=
  { id := "d1", question := "Which freshness window?", qtype := "text",
    options := [], required := true, estimated_cost := none,
    estimated_mb := none, estimated_seconds := none }

/-- An answers map answering the required fixture question. -/
def answersW : List (String × String) := [("d1", "last 30 days")]

/-! ## Helper lemmas -/

theorem str_append_empty (s : String) : s ++ "" = s := by
  cases s with
  | mk d => show String.mk (d ++ []) = String.mk d; rw [List.append_nil]

theorem str_append_assoc (a b c : String) : a ++ b ++ c = a ++ (b ++ c) := by
  cases a with
  | mk da =>
    cases b with
    | mk db =>
      cases c with
      | mk dc => show String.mk (da ++ db ++ dc) = String.mk (da ++ (db ++ dc))
                 rw [List.append_assoc]

theorem jsJoin_cons (sep : String) :
    ∀ (l : List String) (a : String),
      jsJoin sep (a :: l) = a ++ (l.map fun s => sep ++ s).foldr (fun x y => x ++ y) "" := by
  intro l
  induction l with
  | nil => intro a; simp [jsJoin, str_append_empty]
  | cons x xs ih =>
      intro a
      show a ++ sep ++ jsJoin sep (x :: xs) = _
      rw [ih x]
      simp [List.map_cons, List.foldr_cons, str_append_assoc]

theorem includesAux_iff (c : Char) : ∀ l : List Char, includesAux l c = true ↔ c ∈ l := by
  intro l
  induction l with
  | nil => simp [includesAux]
  | cons x xs ih =>
      by_cases h : x = c <;> simp [includesAux, h, ih]
      exact fun h2 => (h h2.symm).elim

theorem includes_eq_not_all (v : String) :
    (jsIncludes v ',' || jsIncludes v dq || jsIncludes v nl)
      = !(v.toList.all fun c => !(c = ',' || c = dq || c = nl)) := by
  show (includesAux v.toList ',' || includesAux v.toList dq || includesAux v.toList nl) = _
  induction v.toList with
  | nil => simp [includesAux]
  | cons x xs ih =>
      by_cases h1 : x = ',' <;> by_cases h2 : x = dq <;> by_cases h3 : x = nl <;>
        simp [includesAux, h1, h2, h3, ih]

theorem doubleQuotes_eq_foldr (v : String) :
    doubleQuotes v = String.mk (v.toList.foldr
      (fun c acc => if c = dq then dq :: dq :: acc else c :: acc) []) := by
  show String.mk _ = String.mk _
  congr 1
  induction v.toList with
  | nil => rfl
  | cons x xs ih =>
      by_cases h : x = dq <;> simp [List.map_cons, List.flatten_cons, h, ih]

theorem escapeCSVField_eq_spec (o : Option String) : escapeCSVField o = csvFieldSpec o := by
  cases o with
  | none => rfl
  | some v =>
      simp only [escapeCSVField, csvFieldSpec]
      rw [includes_eq_not_all, doubleQuotes_eq_foldr]
      cases hb : (v.toList.all fun c => !(c = ',' || c = dq || c = nl)) <;> simp [hb]

theorem csvRowLine_eq_spec (headers : List String) (row : JsRow) :
    csvRowLine headers row = csvRowLineSpec headers row := by
  unfold csvRowLine csvRowLineSpec
  congr 1
  exact List.map_congr_left fun h _ => escapeCSVField_eq_spec (jsField row h)

theorem csvRowLine_fun_eq_spec (headers : List String) :
    csvRowLine headers = csvRowLineSpec headers :=
  funext fun row => csvRowLine_eq_spec headers row

/-- Claim C10: for every non-empty result set, the CSV produced by the
report download consists of one header line of the column names joined
by commas followed by one line per row, where a null or undefined field
value becomes the empty string, a value containing no comma, double
quote or newline is emitted unchanged, and any other value is wrapped in
double quotes with every embedded double quote doubled. -/
theorem C10_csv_download_format (first : JsRow) (rest : List JsRow) :
    csvContent first rest = csvSpecContent first rest := by
  unfold csvContent csvSpecContent
  rw [jsJoin_cons, csvRowLine_fun_eq_spec]
  congr 1
  rw [List.map_map]
  rfl

theorem find_decomp {α : Type} (p : α → Bool) :
    ∀ (l : List α) (a : α), l.find? p = some a →
      ∃ pre post, l = pre ++ a :: post ∧ (∀ x ∈ pre, p x = false) ∧ p a = true := by
  intro l
  induction l with
  | nil => intro a h; simp [List.find?] at h
  | cons x xs ih =>
      intro a h
      cases hx : p x with
      | true =>
          rw [List.find?_cons_of_pos _ hx] at h
          cases h
          exact ⟨[], xs, rfl, by simp, hx⟩
      | false =>
          rw [List.find?_cons_of_neg _ (by simp [hx])] at h
          obtain ⟨pre, post, heq, hpre, hpa⟩ := ih a h
          refine ⟨x :: pre, post, by simp [heq], ?_, hpa⟩
          intro y hy
          cases hy with
          | head => exact hx
          | tail _ hy2 => exact hpre y hy2

theorem le_bestScore (q : String) :
    ∀ (catalog : List SavedRecord) (r : SavedRecord), r ∈ catalog →
      overlapScore q r ≤ bestScore q catalog := by
  intro catalog
  induction catalog with
  | nil => intro r hr; cases hr
  | cons x xs ih =>
      intro r hr
      have hb : bestScore q (x :: xs) = max (overlapScore q x) (bestScore q xs) := rfl
      cases hr with
      | head => rw [hb]; exact Nat.le_max_left _ _
      | tail _ hr2 => rw [hb]; exact Nat.le_trans (ih r hr2) (Nat.le_max_right _ _)

/-- Claim C5: saved-query matching is a deterministic function of the
question text and the catalog, and when it selects a record that record
has a positive keyword-overlap score, no record in the catalog scores
higher, and every record placed earlier in the catalog scores strictly
lower — highest score wins, ties broken by insertion order with the
first record winning. -/
theorem C5_saved_query_matching_deterministic :
    (∀ (c1 c2 : List SavedRecord) (q1 q2 : String),
      c1 = c2 → q1 = q2 → matchSaved c1 q1 = matchSaved c2 q2)
    ∧ (∀ (catalog : List SavedRecord) (q : String) (rec : SavedRecord),
        matchSaved catalog q = some rec →
          rec ∈ catalog
          ∧ 0 < overlapScore q rec
          ∧ (∀ r ∈ catalog, overlapScore q r ≤ overlapScore q rec)
          ∧ ∃ pre post, catalog = pre ++ rec :: post
              ∧ ∀ r ∈ pre, overlapScore q r < overlapScore q rec) := by
  constructor
  · intro c1 c2 q1 q2 hc hq; rw [hc, hq]
  · intro catalog q rec h
    unfold matchSaved at h
    by_cases hm : bestScore q catalog = 0
    · simp [hm] at h
    · simp only [hm, if_false] at h
      obtain ⟨pre, post, heq, hpre, hprec⟩ := find_decomp _ catalog rec h
      have hscore : overlapScore q rec = bestScore q catalog :=
        Nat.eq_of_beq_eq_true (by simpa using hprec)
      have hmem : rec ∈ catalog := by rw [heq]; exact List.mem_append_right _ (by simp)
      refine ⟨hmem, ?_, ?_, pre, post, heq, ?_⟩
      · rw [hscore]; exact Nat.pos_of_ne_zero hm
      · intro r hr; rw [hscore]; exact le_bestScore q catalog r hr
      · intro r hr
        have hrmem : r ∈ catalog := by
          rw [heq]; exact List.mem_append_left _ hr
        have hle : overlapScore q r ≤ overlapScore q rec := by
          rw [hscore]; exact le_bestScore q catalog r hrmem
        have hne : overlapScore q r ≠ overlapScore q rec := by
          intro hcontra
          have := hpre r hr
          rw [hscore] at hcontra
          simp [hcontra] at this
        exact Nat.lt_of_le_of_ne hle hne

theorem buildErrors_lookup :
    ∀ (missing : List FQuestion) (acc : List (String × String)) (id : String),
      (missing.foldl (fun acc q => (q.id, reqMsg) :: acc) acc).lookup id
        = if missing.any (fun q => q.id == id) then some reqMsg else acc.lookup id := by
  intro missing
  induction missing with
  | nil => intro acc id; simp
  | cons q qs ih =>
      intro acc id
      show (qs.foldl (fun acc q => (q.id, reqMsg) :: acc) ((q.id, reqMsg) :: acc)).lookup id = _
      rw [ih ((q.id, reqMsg) :: acc) id]
      have hcons : List.lookup id ((q.id, reqMsg) :: acc)
          = if id == q.id then some reqMsg else List.lookup id acc := by
        simp only [List.lookup]
        cases id == q.id <;> rfl
      rw [hcons]
      by_cases hq : q.id = id
      · simp [List.any_cons, hq]
      · have hq2 : ¬ id = q.id := fun h => hq h.symm
        simp [List.any_cons, beq_iff_eq, hq, hq2]

/-- Claim C8: the FollowUpQuestions confirm handler invokes `onConfirm`
with the answers exactly when every question marked required has a
non-empty answer; otherwise it does not invoke `onConfirm` and records
the error text for exactly the required questions lacking an answer. -/
theorem C8_confirm_requires_required_answers (questions : List FQuestion)
    (answers : List (String × String)) :
    (handleConfirm questions answers = ConfirmAction.confirmed answers
      ↔ ∀ q ∈ questions, q.required = true → answerTruthy answers q.id = true)
    ∧ (∀ errs, handleConfirm questions answers = ConfirmAction.rejected errs →
        (∀ id, (errs.lookup id).isSome = true
            ↔ ∃ q ∈ questions,
                q.required = true ∧ answerTruthy answers q.id = false ∧ q.id = id)
        ∧ (∀ id msg, errs.lookup id = some msg → msg = reqMsg)) := by
  have hany : ∀ id,
      ((questions.filter fun q => q.required && !(answerTruthy answers q.id)).any
          fun q => q.id == id) = true
        ↔ ∃ q ∈ questions,
            q.required = true ∧ answerTruthy answers q.id = false ∧ q.id = id := by
    intro id
    constructor
    · intro ha
      obtain ⟨q, hqmem, hqid⟩ := List.any_eq_true.mp ha
      have hqf := List.mem_filter.mp hqmem
      have hq2 := hqf.2
      simp only [Bool.and_eq_true, Bool.not_eq_true'] at hq2
      exact ⟨q, hqf.1, hq2.1, hq2.2, by simpa using hqid⟩
    · intro hex
      obtain ⟨q, hqmem, hreq, hans, hid⟩ := hex
      refine List.any_eq_true.mpr ⟨q, ?_, by simpa using hid⟩
      exact List.mem_filter.mpr ⟨hqmem, by simp [hreq, hans]⟩
  unfold handleConfirm
  cases hmiss : questions.filter fun q => q.required && !(answerTruthy answers q.id) with
  | nil =>
      constructor
      · simp only [List.isEmpty_nil, if_true]
        constructor
        · intro _ q hq hreq
          have := List.filter_eq_nil_iff.mp hmiss q hq
          simpa [hreq] using this
        · intro _; trivial
      · intro errs herr; simp at herr
  | cons m ms =>
      have hm : m ∈ questions.filter fun q => q.required && !(answerTruthy answers q.id) := by
        rw [hmiss]; exact List.mem_cons_self m ms
      have hmq := List.mem_filter.mp hm
      constructor
      · simp only [List.isEmpty_cons, if_false]
        constructor
        · intro hcontra; simp at hcontra
        · intro hall
          have h1 := hall m hmq.1
          have h2 := hmq.2
          simp only [Bool.and_eq_true, Bool.not_eq_true'] at h2
          rw [h1 h2.1] at h2
          cases h2.2
      · simp only [List.isEmpty_cons, if_false]
        intro errs herr
        have herrs : errs = buildErrors (m :: ms) := by
          cases herr; rfl
        subst herrs
        have hlook : ∀ id, (buildErrors (m :: ms)).lookup id
            = if ((m :: ms).any fun q => q.id == id) then some reqMsg else none := by
          intro id
          unfold buildErrors
          rw [buildErrors_lookup]
          rfl
        constructor
        · intro id
          rw [hlook id, ← hmiss]
          by_cases hb : ((questions.filter
              fun q => q.required && !(answerTruthy answers q.id)).any
                fun q => q.id == id) = true
          · rw [if_pos hb]
            exact iff_of_true rfl ((hany id).mp hb)
          · rw [if_neg hb]
            exact iff_of_false (by simp) (fun hex => hb ((hany id).mpr hex))
        · intro id msg hmsg
          rw [hlook id] at hmsg
          by_cases ha : ((m :: ms).any fun q => q.id == id) = true
          · rw [if_pos ha] at hmsg; cases hmsg; rfl
          · rw [if_neg ha] at hmsg; cases hmsg

/-- Claim C6: every request body built by the client's `sendQuery` has
exactly the fields question, query_key, use_predefined,
previous_sql_query, followup_answers, skip_followups and mode;
skip_followups is always a boolean; mode defaults to report when not
passed; the optional fields are null when the corresponding argument is
absent; and both call sites in the chat interface send mode report. -/
theorem C6_send_query_request_shape (question : JSValue)
    (usePredefined queryKey previousSqlQuery followupAnswers
      skipFollowups mode : Option JSValue) :
    ((sendQueryBody question usePredefined queryKey previousSqlQuery
        followupAnswers skipFollowups mode).map Prod.fst = chatQueryFields)
    ∧ (∃ b, (sendQueryBody question usePredefined queryKey previousSqlQuery
        followupAnswers skipFollowups mode).lookup "skip_followups"
          = some (JSValue.vBool b))
    ∧ (mode = none →
        (sendQueryBody question usePredefined queryKey previousSqlQuery
          followupAnswers skipFollowups mode).lookup "mode"
            = some (JSValue.vStr "report"))
    ∧ (queryKey = none →
        (sendQueryBody question usePredefined queryKey previousSqlQuery
          followupAnswers skipFollowups mode).lookup "query_key" = some JSValue.vNull)
    ∧ (previousSqlQuery = none →
        (sendQueryBody question usePredefined queryKey previousSqlQuery
          followupAnswers skipFollowups mode).lookup "previous_sql_query"
            = some JSValue.vNull)
    ∧ (followupAnswers = none →
        (sendQueryBody question usePredefined queryKey previousSqlQuery
          followupAnswers skipFollowups mode).lookup "followup_answers"
            = some JSValue.vNull)
    ∧ (∀ (query : String) (queryKey2 lastSql : JSValue),
        (handleSendBody query queryKey2 lastSql).lookup "mode"
          = some (JSValue.vStr "report"))
    ∧ (∀ (q : String) (lastSql : JSValue) (answers : List (String × String)),
        (handleFollowupConfirmBody q lastSql answers).lookup "mode"
          = some (JSValue.vStr "report")) := by
  refine ⟨rfl, ⟨truthy (skipFollowups.getD (JSValue.vBool false)), rfl⟩,
    ?_, ?_, ?_, ?_, fun _ _ _ => rfl, fun _ _ _ => rfl⟩
  · intro h; subst h; rfl
  · intro h; subst h; rfl
  · intro h; subst h; rfl
  · intro h; subst h; rfl

/-- Counterexample to claim C7: the two fixture questions agree on every
field of the claimed item shape (id, question, type, options, required,
estimated_cost) yet the renderer displays them differently, because the
estimate badge is driven by the estimated_mb field, which is not part of
the claimed shape. -/
theorem C7_renderer_shape_counterexample :
    qWithMb.id = qNoMb.id ∧ qWithMb.question = qNoMb.question
    ∧ qWithMb.qtype = qNoMb.qtype ∧ qWithMb.options = qNoMb.options
    ∧ qWithMb.required = qNoMb.required
    ∧ qWithMb.estimated_cost = qNoMb.estimated_cost
    ∧ renderFollowUpQuestion 0 qWithMb [] [] ≠ renderFollowUpQuestion 0 qNoMb [] [] := by
  refine ⟨rfl, rfl, rfl, rfl, rfl, rfl, ?_⟩
  decide

/-- Claim C7 as amended: the renderer consumes exactly the fields id,
question, type, options, required, estimated_mb and estimated_seconds —
its display is fully determined by them (so estimated_cost is never
consulted) — and a type outside {date_selection, confirmation, text}
falls back to a plain text input rather than being rejected. -/
theorem C7_renderer_consumed_fields (idx : Nat) (q1 q2 : FQuestion)
    (answers errors : List (String × String)) :
    (q1.id = q2.id → q1.question = q2.question → q1.qtype = q2.qtype →
      q1.options = q2.options → q1.required = q2.required →
      q1.estimated_mb = q2.estimated_mb → q1.estimated_seconds = q2.estimated_seconds →
      renderFollowUpQuestion idx q1 answers errors
        = renderFollowUpQuestion idx q2 answers errors)
    ∧ (q1.qtype ≠ "date_selection" → q1.qtype ≠ "confirmation" → q1.qtype ≠ "text" →
        renderQuestionInput q1 answers = Widget.textInput (lookupD answers q1.id "")) := by
  constructor
  · intro h1 h2 h3 h4 h5 h6 h7
    cases q1; cases q2
    simp only at h1 h2 h3 h4 h5 h6 h7
    subst h1; subst h2; subst h3; subst h4; subst h5; subst h6; subst h7
    rfl
  · intro h1 h2 h3
    unfold renderQuestionInput
    rw [if_neg h1, if_neg h2, if_neg h3]

/-- Counterexample to claim C9: in `handleSend` the stored last-SQL value
is updated without consulting `success`, so an error response that
carries a non-empty, non-conversational sql_query does change the stored
value. -/
theorem C9_error_response_updates_counterexample :
    errorResponseWithSql.success = false
    ∧ handleSendLastSql errorResponseWithSql none = some "SELECT 1"
    ∧ handleSendLastSql errorResponseWithSql none ≠ none := by
  decide

/-- Claim C9 as amended: the stored last-SQL value is updated only when
the response carries a non-empty sql_query and is not conversational, in
which case it becomes that sql_query; conversational responses and
responses without SQL always leave it unchanged; in the follow-up
confirm path an unsuccessful response also leaves it unchanged, but in
the main send path success is not consulted. -/
theorem C9_last_sql_update_policy (resp : ChatResponse) (last : Option String) :
    (handleSendLastSql resp last ≠ last →
      sqlTruthy resp.sql_query = true ∧ resp.is_conversational = false
        ∧ handleSendLastSql resp last = resp.sql_query)
    ∧ (resp.is_conversational = true → handleSendLastSql resp last = last)
    ∧ (sqlTruthy resp.sql_query = false → handleSendLastSql resp last = last)
    ∧ (handleFollowupConfirmLastSql resp last ≠ last →
        resp.success = true ∧ sqlTruthy resp.sql_query = true
          ∧ resp.is_conversational = false
          ∧ handleFollowupConfirmLastSql resp last = resp.sql_query)
    ∧ (resp.success = false → handleFollowupConfirmLastSql resp last = last)
    ∧ (resp.is_conversational = true → handleFollowupConfirmLastSql resp last = last)
    ∧ (sqlTruthy resp.sql_query = false →
        handleFollowupConfirmLastSql resp last = last) := by
  unfold handleSendLastSql handleFollowupConfirmLastSql
  refine ⟨?_, ?_, ?_, ?_, ?_, ?_, ?_⟩ <;>
    · intro h
      split_ifs <;> simp_all

/-- Claim C1: any SQL candidate containing a deny-listed keyword as a
whole token outside string literals is rejected by the Safety Gate with
SafetyViolation, whatever the outcomes of the later schema and semantic
checks — in particular even when the statement begins with SELECT. -/
theorem C1_denied_keyword_rejected (sql : String) (schemaOk semanticOk : Bool)
    (h : containsDeniedKeyword sql = true) :
    safetyGate sql schemaOk semanticOk = some SafetyReason.SafetyViolation := by
  unfold safetyGate
  cases hs : singleSelect sql with
  | false => rfl
  | true => simp [h]

theorem repairRest_bounds (ag : Agents) (question : String) (facts : List String)
    (c1 : SqlCandidate) (reason : String) (execSoFar : Nat) :
    (repairRest ag question facts c1 reason execSoFar).repairCalls = 1
    ∧ (repairRest ag question facts c1 reason execSoFar).execCalls ≤ execSoFar + 1
    ∧ isNeedsClarification (repairRest ag question facts c1 reason execSoFar).result
        = false := by
  unfold repairRest
  repeat' split
  all_goals first
    | exact ⟨rfl, Nat.le_succ _, rfl⟩
    | exact ⟨rfl, Nat.le_refl _, rfl⟩

theorem generationRest_bounds (ag : Agents) (question : String) (facts : List String)
    (sql1 : String) :
    (generationRest ag question facts sql1).repairCalls ≤ 1
    ∧ (generationRest ag question facts sql1).execCalls ≤ 2
    ∧ isNeedsClarification (generationRest ag question facts sql1).result = false := by
  unfold generationRest
  split
  · obtain ⟨h1, h2, h3⟩ := repairRest_bounds ag question facts
      { sql := sql1, agent := "generation", status := "rejected",
        reason := some (reasonText _) } (reasonText _) 0
    exact ⟨Nat.le_of_eq h1, Nat.le_trans h2 (by omega), h3⟩
  · split
    · exact ⟨Nat.zero_le _, Nat.le_succ _, rfl⟩
    · obtain ⟨h1, h2, h3⟩ := repairRest_bounds ag question facts
        { sql := sql1, agent := "generation", status := "valid", reason := none } _ 1
      exact ⟨Nat.le_of_eq h1, h2, h3⟩

/-- Claim C2: in every pipeline run the Repair Agent is invoked at most
once and the Execution Adapter at most twice; and a generation-path run
whose Execution Adapter always fails — with generation, clarification
gating, repair and both Safety Gate checks succeeding — makes exactly two
Execution Adapter invocations, exactly one Repair invocation, and
terminates with a Failure result. -/
theorem C2_repair_and_execution_bounds :
    (∀ (ag : Agents) (catalog : List SavedRecord) (req : Request),
      (runPipeline ag catalog req).repairCalls ≤ 1
      ∧ (runPipeline ag catalog req).execCalls ≤ 2)
    ∧ (∀ (ag : Agents) (catalog : List SavedRecord) (req : Request)
        (errOf : String → String) (facts : List String) (sql1 sql2 : String),
        (∀ s, ag.execute s = Except.error (errOf s)) →
        req.mode = Mode.report →
        selectSaved catalog req = none →
        ag.retrieve req.question = Except.ok facts →
        ag.generate req.question facts req.previous_sql_query = some sql1 →
        req.skip_followups = true →
        safetyGate sql1 (ag.schemaOk sql1) (ag.semanticOk sql1) = none →
        (∀ r, ag.repair sql1 r req.question facts = some sql2) →
        safetyGate sql2 (ag.schemaOk sql2) (ag.semanticOk sql2) = none →
          (runPipeline ag catalog req).execCalls = 2
          ∧ (runPipeline ag catalog req).repairCalls = 1
          ∧ (runPipeline ag catalog req).result
              = PipelineResult.Failure "ExecutionError" (errOf sql2)) := by
  constructor
  · intro ag catalog req
    unfold runPipeline
    repeat' split
    all_goals
      first
      | exact ⟨(generationRest_bounds ag req.question _ _).1,
          (generationRest_bounds ag req.question _ _).2.1⟩
      | exact ⟨Nat.zero_le _, Nat.zero_le _⟩
      | exact ⟨Nat.zero_le _, Nat.le_succ _⟩
  · intro ag catalog req errOf facts sql1 sql2
      hexec hmode hsel hret hgen hskip hsafe1 hrep hsafe2
    have hrun : runPipeline ag catalog req
        = generationRest ag req.question facts sql1 := by
      unfold runPipeline
      simp only [hmode, hsel, hret, hgen]
      cases hclar : ag.clarify req.question facts with
      | none => rfl
      | some p =>
          cases p with
          | mk qs rationale => simp [hskip]
    have hgenrest : generationRest ag req.question facts sql1
        = repairRest ag req.question facts
            { sql := sql1, agent := "generation", status := "valid", reason := none }
            (errOf sql1) 1 := by
      unfold generationRest
      rw [hsafe1, hexec sql1]
    have hreprest : repairRest ag req.question facts
        { sql := sql1, agent := "generation", status := "valid", reason := none }
        (errOf sql1) 1
        = { result := PipelineResult.Failure "ExecutionError" (errOf sql2)
            candidates :=
              [{ sql := sql1, agent := "generation", status := "valid", reason := none },
               { sql := sql2, agent := "repair", status := "valid", reason := none }]
            generateCalls := 1, safetyCalls := 2, execCalls := 2, repairCalls := 1 } := by
      unfold repairRest
      simp only [hrep (errOf sql1), hsafe2, hexec sql2]
    rw [hrun, hgenrest, hreprest]
    exact ⟨rfl, rfl, rfl⟩

/-- Claim C3: a conversation-mode request always yields the
conversational answer, creates no SQL candidate, and never enters
generation, the Safety Gate or execution. -/
theorem C3_conversation_mode_no_sql (ag : Agents) (catalog : List SavedRecord)
    (req : Request) (h : req.mode = Mode.conversation) :
    (runPipeline ag catalog req).result
        = PipelineResult.Conversational (ag.conversational req.question)
    ∧ (runPipeline ag catalog req).candidates = []
    ∧ (runPipeline ag catalog req).generateCalls = 0
    ∧ (runPipeline ag catalog req).safetyCalls = 0
    ∧ (runPipeline ag catalog req).execCalls = 0
    ∧ (runPipeline ag catalog req).repairCalls = 0 := by
  unfold runPipeline
  rw [h]
  exact ⟨rfl, rfl, rfl, rfl, rfl, rfl⟩

/-- Claim C4: the clarification-confirm replay sent by the client always
carries skip_followups true, and a pipeline run whose request has
skip_followups true never returns NeedsClarification — so a replay after
a NeedsClarification result cannot produce a second one. -/
theorem C4_skip_followups_no_reclarification :
    (∀ (q : String) (lastSql : JSValue) (answers : List (String × String)),
      (handleFollowupConfirmBody q lastSql answers).lookup "skip_followups"
        = some (JSValue.vBool true))
    ∧ (∀ (ag : Agents) (catalog : List SavedRecord) (req : Request),
        req.skip_followups = true →
        isNeedsClarification (runPipeline ag catalog req).result = false) := by
  constructor
  · intro q lastSql answers; rfl
  · intro ag catalog req hskip
    unfold runPipeline
    repeat' split
    all_goals
      first
      | exact (generationRest_bounds ag req.question _ _).2.2
      | simp_all [isNeedsClarification]

/-- Witness for C1 at a single-statement candidate with a leading SELECT
that still contains the denied keyword DROP as a whole token. -/
theorem C1_denied_keyword_rejected_witness :
    containsDeniedKeyword "SELECT name FROM accounts WHERE x = 1 DROP TABLE accounts" = true
    ∧ singleSelect "SELECT name FROM accounts WHERE x = 1 DROP TABLE accounts" = true
    ∧ safetyGate "SELECT name FROM accounts WHERE x = 1 DROP TABLE accounts" true true
        = some SafetyReason.SafetyViolation :=
  ⟨by decide, by decide, C1_denied_keyword_rejected _ true true (by decide)⟩

/-- Witness for C2: the always-failing execution stub produces exactly
two executions, one repair, and a terminal failure. -/
theorem C2_repair_and_execution_bounds_witness :
    (runPipeline failingAgents [] reportReq).execCalls = 2
    ∧ (runPipeline failingAgents [] reportReq).repairCalls = 1
    ∧ (runPipeline failingAgents [] reportReq).result
        = PipelineResult.Failure "ExecutionError" "connection lost" :=
  C2_repair_and_execution_bounds.2 failingAgents [] reportReq (fun _ => "connection lost")
    ["SUPER_LOAN_ACCOUNT_DIM"] "SELECT loan_id FROM SUPER_LOAN_ACCOUNT_DIM"
    "SELECT loan_type FROM SUPER_LOAN_ACCOUNT_DIM"
    (fun _ => rfl) rfl (by decide) rfl rfl rfl (by decide) (fun _ => rfl) (by decide)

/-- Witness for C3 at a concrete conversation-mode request. -/
theorem C3_conversation_mode_no_sql_witness :
    (runPipeline stubAgents [] convReq).result
        = PipelineResult.Conversational "how many gold loan accounts"
    ∧ (runPipeline stubAgents [] convReq).candidates = []
    ∧ (runPipeline stubAgents [] convReq).execCalls = 0 :=
  ⟨(C3_conversation_mode_no_sql stubAgents [] convReq rfl).1,
   (C3_conversation_mode_no_sql stubAgents [] convReq rfl).2.1,
   (C3_conversation_mode_no_sql stubAgents [] convReq rfl).2.2.2.2.1⟩

/-- Witness for C4: the concrete replay body carries skip_followups
true, and a run with skip_followups true against a clarification-happy
agent stub still does not end in NeedsClarification. -/
theorem C4_skip_followups_no_reclarification_witness :
    (handleFollowupConfirmBody "how many gold loan accounts" JSValue.vNull
        [("d1", "Loan Open Date")]).lookup "skip_followups" = some (JSValue.vBool true)
    ∧ isNeedsClarification (runPipeline clarifyAgents [] reportReq).result = false :=
  ⟨C4_skip_followups_no_reclarification.1 "how many gold loan accounts" JSValue.vNull
      [("d1", "Loan Open Date")],
   C4_skip_followups_no_reclarification.2 clarifyAgents [] reportReq rfl⟩

/-- Witness for C5 at a two-record catalog whose records tie on the
question: the matcher picks the first record deterministically. -/
theorem C5_saved_query_matching_deterministic_witness :
    matchSaved [tieRecA, tieRecB] "how many gold loan accounts" = some tieRecA
    ∧ overlapScore "how many gold loan accounts" tieRecB
        = overlapScore "how many gold loan accounts" tieRecA
    ∧ 0 < overlapScore "how many gold loan accounts" tieRecA
    ∧ (∀ r ∈ [tieRecA, tieRecB],
        overlapScore "how many gold loan accounts" r
          ≤ overlapScore "how many gold loan accounts" tieRecA) :=
  ⟨by decide, by decide,
   (C5_saved_query_matching_deterministic.2 [tieRecA, tieRecB]
      "how many gold loan accounts" tieRecA (by decide)).2.1,
   (C5_saved_query_matching_deterministic.2 [tieRecA, tieRecB]
      "how many gold loan accounts" tieRecA (by decide)).2.2.1⟩

/-- Witness for C6 at a call passing only the question: every optional
field is null, mode defaults to report, and the field list is exact. -/
theorem C6_send_query_request_shape_witness :
    ((sendQueryBody (JSValue.vStr "how many gold loan accounts")
        none none none none none none).map Prod.fst = chatQueryFields)
    ∧ (sendQueryBody (JSValue.vStr "how many gold loan accounts")
        none none none none none none).lookup "mode" = some (JSValue.vStr "report")
    ∧ (sendQueryBody (JSValue.vStr "how many gold loan accounts")
        none none none none none none).lookup "query_key" = some JSValue.vNull
    ∧ (sendQueryBody (JSValue.vStr "how many gold loan accounts")
        none none none none none none).lookup "previous_sql_query" = some JSValue.vNull
    ∧ (sendQueryBody (JSValue.vStr "how many gold loan accounts")
        none none none none none none).lookup "followup_answers" = some JSValue.vNull :=
  ⟨(C6_send_query_request_shape (JSValue.vStr "how many gold loan accounts")
      none none none none none none).1,
   (C6_send_query_request_shape (JSValue.vStr "how many gold loan accounts")
      none none none none none none).2.2.1 rfl,
   (C6_send_query_request_shape (JSValue.vStr "how many gold loan accounts")
      none none none none none none).2.2.2.1 rfl,
   (C6_send_query_request_shape (JSValue.vStr "how many gold loan accounts")
      none none none none none none).2.2.2.2.1 rfl,
   (C6_send_query_request_shape (JSValue.vStr "how many gold loan accounts")
      none none none none none none).2.2.2.2.2.1 rfl⟩

/-- Witness for the amended C7: changing only estimated_cost leaves the
rendered question unchanged. -/
theorem C7_renderer_consumed_fields_witness :
    renderFollowUpQuestion 0 qWithMb [] [] = renderFollowUpQuestion 0 qOtherCost [] [] :=
  (C7_renderer_consumed_fields 0 qWithMb qOtherCost [] []).1 rfl rfl rfl rfl rfl rfl rfl

/-- Witness for C8: with the required fixture question answered, the
handler invokes onConfirm with the answers. -/
theorem C8_confirm_requires_required_answers_witness :
    handleConfirm [requiredQ] answersW = ConfirmAction.confirmed answersW :=
  (C8_confirm_requires_required_answers [requiredQ] answersW).1.mpr (by decide)

/-- Witness for the amended C9: in the follow-up confirm path an
unsuccessful response leaves the stored value unchanged. -/
theorem C9_last_sql_update_policy_witness :
    handleFollowupConfirmLastSql errorResponseWithSql (some "SELECT 2") = some "SELECT 2" :=
  (C9_last_sql_update_policy errorResponseWithSql (some "SELECT 2")).2.2.2.2.1 rfl

end ReportGen
